import Mathlib

/-!
Shallow embedding of `trivup/apps/KafkaBrokerApp.py`.

The constructor `KafkaBrokerApp.__init__` is modelled by `KafkaBroker.build`,
a pure function from the cluster environment (registry lookups, port
allocator) and the user-supplied configuration to either a raised error or
the fully computed broker state.  `deploy()` is modelled by
`KafkaBroker.deploy` as explicit state passing.  Python string primitives
(`str.split`, `str.replace`, `sorted`, `%`-formatting) are modelled at the
character-list level so that every definition evaluates inside the kernel.
-/

namespace KafkaBroker

/-- Python code-point comparison on strings, as lists of characters:
`charListLe a b` is `a <= b` in Python's lexicographic string order. -/
def charListLe : List Char → List Char → Bool
  | [], _ => true
  | _ :: _, [] => false
  | a :: as, b :: bs =>
    if a.toNat < b.toNat then true
    else if b.toNat < a.toNat then false
    else charListLe as bs

/-- Python `s <= t` on strings. -/
def strLe (s t : String) : Bool := charListLe s.data t.data

instance : DecidableRel (fun a b => strLe a b = true) := fun _ _ => inferInstance

/-- Python `s.split(sep)` for a one-character separator, on the character
list of `s`: keeps empty fields, `[] ↦ [""]`. -/
def pySplit (sep : Char) : List Char → List String
  | [] => [""]
  | c :: cs =>
    let rest := pySplit sep cs
    if c = sep then "" :: rest
    else
      match rest with
      | [] => [String.mk [c]]
      | s :: ss => (String.mk (c :: s.data)) :: ss

/-- Python `','.join`/`'\n'.join`, at the character-list level. -/
def intercalateChars (sep : List Char) : List (List Char) → List Char
  | [] => []
  | [x] => x
  | x :: xs => x ++ sep ++ intercalateChars sep xs

/-- Python `sep.join(l)`. -/
def joinWith (sep : String) (l : List String) : String :=
  String.mk (intercalateChars sep.data (l.map String.data))

/-- Python `s.replace(' ', '')`: removes every space character. -/
def stripSpaces (s : String) : String := String.mk (s.data.filter (fun c => c ≠ ' '))

/-- Boolean character-level check that `pre` is an initial segment of `s`. -/
def hasPrefixChars : List Char → List Char → Bool
  | [], _ => true
  | _ :: _, [] => false
  | p :: ps, c :: cs => if p = c then hasPrefixChars ps cs else false

/-- Python `sorted(set(l))` for strings: deduplicate, then sort in
code-point order. -/
def sortedSet (l : List String) : List String :=
  List.insertionSort (fun a b => strLe a b = true) l.dedup

/-- The user-supplied configuration dict keys consumed by the constructor
(`version` is accessed unconditionally; the others via `conf.get`). -/
structure InputConf where
  version : String
  listeners : Option String := none
  sasl_mechanisms : Option String := none
  sasl_users : Option String := none
  num_partitions : Option Nat := none
  replication_factor : Option Nat := none

/-- The ZookeeperApp collaborator, as seen through `zk.get('address', None)`. -/
structure ZkApp where
  address : Option String

/-- The KerberosKdcApp collaborator: its `krb5_conf` path and its
`add_principal(service, host) -> (principal, keytab)` operation. -/
structure KdcApp where
  krb5_conf : String
  addPrincipal : String → String → String × String

/-- The cluster environment: registry lookups (`find_app`) and the TCP port
allocator, modelled as the stream of ports it hands out
(`portAt i` is the result of the `i`-th `next()` call). -/
structure Cluster where
  zk : Option ZkApp
  kdc : Option KdcApp
  portAt : Nat → Nat

/-- Exceptions the constructor can raise. -/
inductive BrokerError where
  /-- `raise Exception('ZookeeperApp required')`. -/
  | zookeeperRequired
  /-- `ports[0]` on an empty port list (unreachable in practice). -/
  | indexError
  /-- Python `ValueError` from `u,p = up.split('=')` when the entry does not
  split into exactly two parts. -/
  | valueError (entry : String)
  /-- Python `AttributeError` from `kdc.conf[...]` when
  `cluster.find_app(KerberosKdcApp)` returned `None`. -/
  | attributeErrorKdcNone
  deriving DecidableEq

/-- `ports = [(x, TcpPortAllocator(cluster).next()) for x in names]`:
one allocator call per listener name, in order. -/
def allocPorts (portAt : Nat → Nat) : Nat → List String → List (String × Nat)
  | _, [] => []
  | i, x :: xs => (x, portAt i) :: allocPorts portAt (i + 1) xs

/-- `[x for x in conf.get('sasl_mechanisms', '').replace(' ', '').split(',') if len(x) > 0]`. -/
def parseMechs (csv : String) : List String :=
  (pySplit ',' (stripSpaces csv).data).filter (fun x => x.length > 0)

/-- `conf.get('listeners', 'PLAINTEXT').split(',')`. -/
def parseListenersCSV (conf : InputConf) : List String :=
  pySplit ',' (conf.listeners.getD "PLAINTEXT").data

/-- The local `sasl_mechs` of the constructor. -/
def saslMechs (conf : InputConf) : List String :=
  parseMechs (conf.sasl_mechanisms.getD "")

/-- The listener list after `listeners.append('SASL_PLAINTEXT')` when at
least one SASL mechanism was requested. -/
def finalListenerNames (conf : InputConf) : List String :=
  if (saslMechs conf).length > 0 then parseListenersCSV conf ++ ["SASL_PLAINTEXT"]
  else parseListenersCSV conf

/-- The warning logged when PLAIN is requested without users. -/
def warnNoSaslUsers : String :=
  "WARNING: No sasl_users configured for PLAIN, expected CSV of user=pass,.."

/-- The PLAIN login-module header line. -/
def plainLoginHeader : String :=
  "org.apache.kafka.common.security.plain.PlainLoginModule required debug=true"

/-- `'user_%s="%s"' % (u, p)`. -/
def userLine (u p : String) : String := "user_" ++ u ++ "=\"" ++ p ++ "\""

/-- `jaas_blob[-1] += ';'`: append a semicolon to the last line. -/
def appendSemiToLast : List String → List String
  | [] => []
  | [s] => [s ++ ";"]
  | s :: t :: rest => s :: appendSemiToLast (t :: rest)

/-- `u,p = up.split('=')`: succeeds only when the entry splits into exactly
two parts, otherwise Python raises `ValueError`. -/
def parseUserEntry (up : String) : Except BrokerError (String × String) :=
  match pySplit '=' up.data with
  | [u, p] => .ok (u, p)
  | _ => .error (.valueError up)

/-- The `for up in sasl_users.split(','):` loop body, stopping at the first
malformed entry (the first raised `ValueError`). -/
def parseUsers : List String → Except BrokerError (List (String × String))
  | [] => .ok []
  | up :: rest =>
    match parseUserEntry up with
    | .error e => .error e
    | .ok p =>
      match parseUsers rest with
      | .error e => .error e
      | .ok ps => .ok (p :: ps)

/-- The PLAIN stanza lines: header plus one `user_...` line per pair. -/
def plainJaasLines (pairs : List (String × String)) : List String :=
  plainLoginHeader :: pairs.map (fun up => userLine up.1 up.2)

/-- The GSSAPI (Krb5LoginModule) stanza lines. -/
def gssapiJaasLines (keytab principal : String) : List String :=
  ["com.sun.security.auth.module.Krb5LoginModule required",
   "useKeyTab=true storeKey=true doNotPrompt=true",
   "keyTab=\"" ++ keytab ++ "\"",
   "debug=true",
   "principal=\"" ++ principal ++ "\";"]

/-- Everything the SASL branch of the constructor produces. -/
structure SaslOut where
  jaasLines : List String
  confBlob : List String
  warnings : List String
  env : List (String × String)
  jaasFile : Option (String × String)
  deriving DecidableEq

/-- Lines 69–78: the `if 'PLAIN' in sasl_mechs` block.  Returns the
`jaas_blob` after the block (it starts as `['KafkaServer {']`) together
with the warnings logged. -/
def plainStep (conf : InputConf) (mechs : List String) :
    Except BrokerError (List String × List String) :=
  if "PLAIN" ∈ mechs then
    if (conf.sasl_users.getD "").length = 0 then
      .ok (["KafkaServer \x7b"], [warnNoSaslUsers])
    else
      match parseUsers (pySplit ',' (conf.sasl_users.getD "").data) with
      | .error e => .error e
      | .ok pairs =>
        .ok (appendSemiToLast (["KafkaServer \x7b"] ++ plainJaasLines pairs), [])
  else .ok (["KafkaServer \x7b"], [])

/-- Lines 93–96: close the `KafkaServer` block, materialize
`jaas_broker.conf`, and add the login-config environment variables. -/
def closeJaas (confBlob jaas warnings : List String) (env : List (String × String)) :
    SaslOut :=
  let jaasAll := jaas ++ ["\x7d;\n"]
  { jaasLines := jaasAll,
    confBlob := confBlob,
    warnings := warnings,
    jaasFile := some ("jaas_broker.conf", joinWith "\n" jaasAll),
    env := env ++ [("KAFKA_OPTS", "-Djava.security.auth.login.config=jaas_broker.conf"),
                   ("KAFKA_OPTS", "-Djava.security.debug=all")] }

/-- Lines 80–91: the `if 'GSSAPI' in sasl_mechs` block, followed by the
closing of the JAAS blob.  Accessing the KDC when `find_app` returned
`None` raises (`AttributeError`). -/
def gssapiStep (cluster : Cluster) (nodename : String) (mechs : List String)
    (confBlob jaas warnings : List String) : Except BrokerError SaslOut :=
  if "GSSAPI" ∈ mechs then
    match cluster.kdc with
    | none => .error .attributeErrorKdcNone
    | some kdc =>
      .ok (closeJaas (confBlob ++ ["sasl.kerberos.service.name=kafka"])
            (jaas ++ gssapiJaasLines (kdc.addPrincipal "kafka" nodename).2
                      (kdc.addPrincipal "kafka" nodename).1)
            warnings
            [("KRB5_CONFIG", kdc.krb5_conf),
             ("KAFKA_OPTS", "-Djava.security.krb5.conf=" ++ kdc.krb5_conf),
             ("KAFKA_OPTS", "-Dsun.security.krb5.debug=true")])
  else .ok (closeJaas confBlob jaas warnings [])

/-- Lines 64–96: the whole `if len(sasl_mechs) > 0` branch.  With no
mechanism requested nothing is emitted: no file, no env vars. -/
def saslCompose (cluster : Cluster) (conf : InputConf) (nodename : String) :
    Except BrokerError SaslOut :=
  if (saslMechs conf).length > 0 then
    match plainStep conf (saslMechs conf) with
    | .error e => .error e
    | .ok (jaas1, warns) =>
      gssapiStep cluster nodename (saslMechs conf)
        ["sasl.enabled.mechanisms=" ++ joinWith "," (saslMechs conf)] jaas1 warns
  else .ok { jaasLines := [], confBlob := [], warnings := [], env := [], jaasFile := none }

/-- The state of a constructed `KafkaBrokerApp`: every configuration field
the constructor writes, plus the accumulated environment, warnings and
generated files.  File-creating collaborators are modelled as returning the
file name as its path. -/
structure BrokerState where
  version : String
  kafkaPath : Option String
  ports : List (String × Nat)
  port : Nat
  address : String
  listeners : String
  advertisedListeners : String
  confBlob : List String
  jaasLines : List String
  jaasFile : Option (String × String)
  warnings : List String
  env : List (String × String)
  logDirs : String
  zkConnect : Option String
  numPartitions : Nat
  replicationFactor : Nat
  confFile : String
  log4jFile : String
  startCmd : String
  stopCmd : Option String
  deriving DecidableEq

/-- The non-fallible tail of the constructor: the state record assembled
once the port list is allocated and the SASL branch has succeeded.
Lines 56–62 and 99–124 of the source. -/
def assemble (conf : InputConf) (nodename : String) (kafkaPath : Option String)
    (zk : ZkApp) (prts : List (String × Nat)) (p0 : String × Nat) (s : SaslOut) :
    BrokerState :=
  let listenersStr := joinWith ","
    (prts.map (fun xp => xp.1 ++ "://" ++ nodename ++ ":" ++ toString xp.2))
  let startSh := match kafkaPath with
    | some kp => kp ++ "/bin/kafka-server-start.sh"
    | none => "kafka-server-start.sh"
  { version := if conf.version = "master" then "trunk" else conf.version,
    kafkaPath := kafkaPath,
    ports := prts,
    port := p0.2,
    address := nodename ++ ":" ++ toString p0.2,
    listeners := listenersStr,
    advertisedListeners := listenersStr,
    confBlob := s.confBlob,
    jaasLines := s.jaasLines,
    jaasFile := s.jaasFile,
    warnings := s.warnings,
    env := s.env ++ [("KAFKA_LOG4J_OPTS", "-Dlog4j.configuration=file:log4j.properties")],
    logDirs := "logs",
    zkConnect := zk.address,
    numPartitions := conf.num_partitions.getD 3,
    replicationFactor := conf.replication_factor.getD 1,
    confFile := "server.properties",
    log4jFile := "log4j.properties",
    startCmd := startSh ++ " " ++ "server.properties",
    stopCmd := none }

/-- `KafkaBrokerApp.__init__(cluster, conf, on=nodename, kafka_path)`:
dependency check, version fixup, listener parsing, port allocation,
listener strings, the SASL branch, defaults, config files and the process
descriptor — or the first exception raised along the way. -/
def build (cluster : Cluster) (conf : InputConf) (nodename : String)
    (kafkaPath : Option String) : Except BrokerError BrokerState :=
  match cluster.zk with
  | none => .error .zookeeperRequired
  | some zk =>
    match allocPorts cluster.portAt 0 (sortedSet (finalListenerNames conf)) with
    | [] => .error .indexError
    | p0 :: rest =>
      match saslCompose cluster conf nodename with
      | .error e => .error e
      | .ok s => .ok (assemble conf nodename kafkaPath zk (p0 :: rest) p0 s)

/-- The deploy-time environment: the cluster workspace root
(`cluster.mkpath(...)`), the resolved `deploy.sh` path, whether it exists
(`os.path.exists`), and the exit code `os.system` returns for a command. -/
structure DeployEnv where
  mkRoot : String
  deployExec : String
  deployShExists : Bool
  system : String → Int

/-- Python `'%s' % x` where `x` may be `None`. -/
def pyFormatOpt : Option String → String
  | none => "None"
  | some s => s

/-- `destdir = os.path.join(cluster.mkpath(cls), 'kafka', version)`. -/
def deployDestdir (env : DeployEnv) (st : BrokerState) : String :=
  env.mkRoot ++ "/kafka/" ++ st.version

/-- `cmd = '%s %s "%s" "%s"' % (deploy_exec, version, kafka_path, destdir)`. -/
def deployCmd (env : DeployEnv) (st : BrokerState) : String :=
  env.deployExec ++ " " ++ st.version ++ " \"" ++ pyFormatOpt st.kafkaPath ++
    "\" \"" ++ deployDestdir env st ++ "\""

/-- Errors `deploy()` raises. -/
inductive DeployError where
  /-- `NotImplementedError('Kafka deploy.sh script missing in %s')`. -/
  | scriptMissing (path : String)
  /-- `Exception('Deploy "%s" returned exit code %d')`. -/
  | commandFailed (cmd : String) (exitCode : Int)
  deriving DecidableEq

/-- `KafkaBrokerApp.deploy()`: check the deploy script exists, run it, and
on success rewrite `start_cmd` to the deployed binary path.  A raised error
leaves the state untouched. -/
def deploy (env : DeployEnv) (st : BrokerState) : BrokerState × Option DeployError :=
  if env.deployShExists then
    let cmd := deployCmd env st
    let r := env.system cmd
    if r ≠ 0 then (st, some (.commandFailed cmd r))
    else ({ st with startCmd := deployDestdir env st ++ "/bin/kafka-server-start.sh " ++ st.confFile },
          none)
  else (st, some (.scriptMissing env.deployExec))

deriving instance DecidableEq for Except

/-! ### Example fixtures used by concrete witnesses and counterexamples -/

/-- A ZookeeperApp registered in the cluster. -/
def exZk : ZkApp := ⟨some "zkhost:2181"⟩

/-- A cluster with a Zookeeper, no KDC, and ports 9092, 9093, ... . -/
def exCluster : Cluster := { zk := some exZk, kdc := none, portAt := fun i => 9092 + i }

/-- A cluster with no Zookeeper registered. -/
def exClusterNoZk : Cluster := { zk := none, kdc := none, portAt := fun i => 9092 + i }

/-- A KerberosKdcApp collaborator issuing deterministic principals. -/
def exKdc : KdcApp :=
  { krb5_conf := "/cluster/krb5.conf",
    addPrincipal := fun svc host => (svc ++ "/" ++ host ++ "@EXAMPLE.COM",
                                     "/cluster/" ++ svc ++ "_" ++ host ++ ".keytab") }

/-- A cluster with both a Zookeeper and a KDC. -/
def exClusterKdc : Cluster := { zk := some exZk, kdc := some exKdc, portAt := fun i => 9092 + i }

/-- Listener CSV with a duplicate plus a PLAIN mechanism. -/
def exConfC1 : InputConf :=
  { version := "2.8.0", listeners := some "SSL,PLAINTEXT,SSL",
    sasl_mechanisms := some "PLAIN", sasl_users := some "admin=adminpw" }

/-- The spec's `listeners="SSL,PLAINTEXT"`, no SASL, example. -/
def exConfC2 : InputConf := { version := "2.8.0", listeners := some "SSL,PLAINTEXT" }

/-- PLAIN mechanism with empty sasl_users. -/
def exConfC3 : InputConf :=
  { version := "2.8.0", sasl_mechanisms := some "PLAIN", sasl_users := some "" }

/-- Both mechanisms, GSSAPI listed first. -/
def exConfC5 : InputConf :=
  { version := "2.8.0", sasl_mechanisms := some "GSSAPI,PLAIN", sasl_users := some "alice=secret" }

/-- Two listeners plus PLAIN SASL. -/
def exConfC6 : InputConf :=
  { version := "2.8.0", listeners := some "PLAINTEXT,SSL",
    sasl_mechanisms := some "PLAIN", sasl_users := some "alice=secret" }

/-- The spec's two-user PLAIN example. -/
def exConfC7 : InputConf :=
  { version := "2.8.0", sasl_mechanisms := some "PLAIN", sasl_users := some "alice=secret,bob=pw" }

/-- GSSAPI requested (no KDC in `exCluster`). -/
def exConfC8 : InputConf := { version := "2.8.0", sasl_mechanisms := some "GSSAPI" }

/-- A minimal configuration. -/
def exConfC9 : InputConf := { version := "2.8.0" }

/-- PLAIN with a malformed (no `=`) user entry. -/
def exConfC10 : InputConf :=
  { version := "2.8.0", sasl_mechanisms := some "PLAIN", sasl_users := some "alice" }

/-- A deploy environment whose artifact-fetch command exits 1. -/
def exDeployEnv : DeployEnv :=
  { mkRoot := "/tmp/cluster/KafkaBrokerApp", deployExec := "/resources/deploy.sh",
    deployShExists := true, system := fun _ => 1 }

/-- A concrete pre-deploy broker state. -/
def exState : BrokerState :=
  { version := "2.8.0", kafkaPath := none, ports := [("PLAINTEXT", 9092)], port := 9092,
    address := "node1:9092", listeners := "PLAINTEXT://node1:9092",
    advertisedListeners := "PLAINTEXT://node1:9092", confBlob := [], jaasLines := [],
    jaasFile := none, warnings := [], env := [], logDirs := "logs",
    zkConnect := some "zkhost:2181", numPartitions := 3, replicationFactor := 1,
    confFile := "server.properties", log4jFile := "log4j.properties",
    startCmd := "kafka-server-start.sh server.properties", stopCmd := none }

/-! ### Order lemmas for the code-point comparison -/

theorem charListLe_refl : ∀ l : List Char, charListLe l l = true
  | [] => rfl
  | a :: as => by simp [charListLe, charListLe_refl as]

theorem strLe_refl (s : String) : strLe s s = true := charListLe_refl s.data

theorem charListLe_total : ∀ l1 l2 : List Char,
    charListLe l1 l2 = true ∨ charListLe l2 l1 = true
  | [], _ => Or.inl rfl
  | _ :: _, [] => Or.inr rfl
  | a :: as, b :: bs => by
    by_cases hab : a.toNat < b.toNat
    · exact Or.inl (by simp [charListLe, hab])
    · by_cases hba : b.toNat < a.toNat
      · exact Or.inr (by simp [charListLe, hba])
      · rcases charListLe_total as bs with h | h
        · exact Or.inl (by simp [charListLe, hab, hba, h])
        · exact Or.inr (by simp [charListLe, hab, hba, h])

theorem charListLe_trans : ∀ l1 l2 l3 : List Char,
    charListLe l1 l2 = true → charListLe l2 l3 = true → charListLe l1 l3 = true
  | [], _, _, _, _ => rfl
  | _ :: _, [], _, h12, _ => by simp [charListLe] at h12
  | _ :: _, _ :: _, [], _, h23 => by simp [charListLe] at h23
  | a :: as, b :: bs, c :: cs, h12, h23 => by
    by_cases hab : a.toNat < b.toNat
    · by_cases hbc : b.toNat < c.toNat
      · simp [charListLe, show a.toNat < c.toNat by omega]
      · by_cases hcb : c.toNat < b.toNat
        · simp [charListLe, hbc, hcb] at h23
        · simp [charListLe, show a.toNat < c.toNat by omega]
    · by_cases hba : b.toNat < a.toNat
      · simp [charListLe, hab, hba] at h12
      · by_cases hbc : b.toNat < c.toNat
        · simp [charListLe, show a.toNat < c.toNat by omega]
        · by_cases hcb : c.toNat < b.toNat
          · simp [charListLe, hbc, hcb] at h23
          · simp only [charListLe, if_neg hab, if_neg hba] at h12
            simp only [charListLe, if_neg hbc, if_neg hcb] at h23
            simp only [charListLe, if_neg (show ¬a.toNat < c.toNat by omega),
              if_neg (show ¬c.toNat < a.toNat by omega)]
            exact charListLe_trans as bs cs h12 h23

instance : IsTotal String (fun a b => strLe a b = true) :=
  ⟨fun a b => charListLe_total a.data b.data⟩

instance : IsTrans String (fun a b => strLe a b = true) :=
  ⟨fun a b c => charListLe_trans a.data b.data c.data⟩

/-! ### Lemmas about the listener-set computation -/

theorem mem_sortedSet {x : String} {l : List String} : x ∈ sortedSet l ↔ x ∈ l := by
  unfold sortedSet
  rw [(List.perm_insertionSort _ _).mem_iff, List.mem_dedup]

theorem sortedSet_sorted (l : List String) :
    (sortedSet l).Sorted (fun a b => strLe a b = true) :=
  List.sorted_insertionSort _ _

theorem sortedSet_nodup (l : List String) : (sortedSet l).Nodup :=
  (List.perm_insertionSort _ _).nodup_iff.mpr (List.nodup_dedup l)

theorem sortedSet_ne_nil {l : List String} (h : l ≠ []) : sortedSet l ≠ [] := by
  intro hc
  have hperm : List.Perm (sortedSet l) l.dedup := List.perm_insertionSort _ _
  rw [hc] at hperm
  exact h ((List.dedup_eq_nil l).mp hperm.symm.eq_nil)

theorem allocPorts_map_fst (portAt : Nat → Nat) :
    ∀ (i : Nat) (l : List String), (allocPorts portAt i l).map Prod.fst = l
  | _, [] => rfl
  | i, _ :: xs => by simp [allocPorts, allocPorts_map_fst portAt (i + 1) xs]

theorem pySplit_ne_nil (sep : Char) : ∀ l : List Char, pySplit sep l ≠ []
  | [] => by simp [pySplit]
  | c :: cs => by
    simp only [pySplit]
    split
    · simp
    · split
      · simp
      · simp

theorem finalListenerNames_ne_nil (conf : InputConf) : finalListenerNames conf ≠ [] := by
  unfold finalListenerNames parseListenersCSV
  split
  · simp
  · exact pySplit_ne_nil ',' _

theorem allocPorts_cons_of_ne_nil (portAt : Nat → Nat) {l : List String} (h : l ≠ []) :
    ∃ p0 rest, allocPorts portAt 0 l = p0 :: rest := by
  cases l with
  | nil => exact absurd rfl h
  | cons x xs => exact ⟨_, _, rfl⟩

theorem appendSemiToLast_append (l1 : List String) {l2 : List String} (h : l2 ≠ []) :
    appendSemiToLast (l1 ++ l2) = l1 ++ appendSemiToLast l2 := by
  induction l1 with
  | nil => rfl
  | cons a l1 ih =>
    rw [List.cons_append]
    cases hl : l1 ++ l2 with
    | nil => exact absurd (List.append_eq_nil.mp hl).2 h
    | cons b bs =>
      show a :: appendSemiToLast (b :: bs) = a :: (l1 ++ appendSemiToLast l2)
      rw [← hl, ih]

/-! ### Lemmas about SASL user parsing -/

theorem parseUserEntry_error {e : String} (h : (pySplit '=' e.data).length ≠ 2) :
    parseUserEntry e = .error (.valueError e) := by
  unfold parseUserEntry
  cases hs : pySplit '=' e.data with
  | nil => rfl
  | cons u rest =>
    cases rest with
    | nil => rfl
    | cons p rest2 =>
      cases rest2 with
      | nil => exact absurd (by rw [hs]; rfl) h
      | cons q rest3 => rfl

theorem parseUserEntry_error_shape {s : String} {err : BrokerError}
    (h : parseUserEntry s = .error err) : ∃ t, err = .valueError t := by
  unfold parseUserEntry at h
  cases hs : pySplit '=' s.data with
  | nil => rw [hs] at h; exact ⟨s, (Except.error.injEq _ _ |>.mp h).symm⟩
  | cons u rest =>
    cases rest with
    | nil => rw [hs] at h; exact ⟨s, (Except.error.injEq _ _ |>.mp h).symm⟩
    | cons p rest2 =>
      cases rest2 with
      | nil => rw [hs] at h; exact absurd h (by simp)
      | cons q rest3 => rw [hs] at h; exact ⟨s, (Except.error.injEq _ _ |>.mp h).symm⟩

theorem parseUsers_error : ∀ l : List String,
    (∃ e ∈ l, (pySplit '=' e.data).length ≠ 2) →
    ∃ bad, parseUsers l = .error (.valueError bad) := by
  intro l
  induction l with
  | nil => rintro ⟨e, he, _⟩; exact absurd he (List.not_mem_nil e)
  | cons a as ih =>
    rintro ⟨e, he, hbad⟩
    rcases List.mem_cons.mp he with rfl | he
    · exact ⟨e, by simp [parseUsers, parseUserEntry_error hbad]⟩
    · cases hpe : parseUserEntry a with
      | error err =>
        obtain ⟨t, rfl⟩ := parseUserEntry_error_shape hpe
        exact ⟨t, by simp [parseUsers, hpe]⟩
      | ok p =>
        obtain ⟨bad, hb⟩ := ih ⟨e, he, hbad⟩
        exact ⟨bad, by simp [parseUsers, hpe, hb]⟩

/-! ### Evaluation lemmas for `build` -/

theorem build_eq (cluster : Cluster) (conf : InputConf) (nodename : String)
    (kafkaPath : Option String) (zk : ZkApp) (p0 : String × Nat) (rest : List (String × Nat))
    (hzk : cluster.zk = some zk)
    (hp : allocPorts cluster.portAt 0 (sortedSet (finalListenerNames conf)) = p0 :: rest) :
    build cluster conf nodename kafkaPath =
      (saslCompose cluster conf nodename).map
        (fun s => assemble conf nodename kafkaPath zk (p0 :: rest) p0 s) := by
  unfold build
  rw [hzk, hp]
  cases hs : saslCompose cluster conf nodename with
  | error e => simp [hs, Except.map]
  | ok s => simp [hs, Except.map]

theorem build_ok_inv {cluster : Cluster} {conf : InputConf} {nodename : String}
    {kafkaPath : Option String} {st : BrokerState}
    (h : build cluster conf nodename kafkaPath = .ok st) :
    ∃ zk p0 rest s, cluster.zk = some zk ∧
      allocPorts cluster.portAt 0 (sortedSet (finalListenerNames conf)) = p0 :: rest ∧
      saslCompose cluster conf nodename = .ok s ∧
      st = assemble conf nodename kafkaPath zk (p0 :: rest) p0 s := by
  unfold build at h
  cases hzk : cluster.zk with
  | none => rw [hzk] at h; simp at h
  | some zk =>
    rw [hzk] at h
    cases hp : allocPorts cluster.portAt 0 (sortedSet (finalListenerNames conf)) with
    | nil => rw [hp] at h; simp at h
    | cons p0 rest =>
      rw [hp] at h
      cases hs : saslCompose cluster conf nodename with
      | error e => rw [hs] at h; simp at h
      | ok s =>
        rw [hs] at h
        simp only [Except.ok.injEq] at h
        exact ⟨zk, p0, rest, s, rfl, rfl, rfl, h.symm⟩

theorem mem_finalListenerNames (conf : InputConf) (x : String) :
    x ∈ finalListenerNames conf ↔
      (x ∈ parseListenersCSV conf ∨ (x = "SASL_PLAINTEXT" ∧ saslMechs conf ≠ [])) := by
  unfold finalListenerNames
  by_cases h : (saslMechs conf).length > 0
  · rw [if_pos h]
    have hne : saslMechs conf ≠ [] := List.length_pos.mp h
    simp [List.mem_append, hne]
  · rw [if_neg h]
    have hnil : saslMechs conf = [] := by
      rcases hh : saslMechs conf with _ | ⟨a, as⟩
      · rfl
      · rw [hh] at h; simp at h
    simp [hnil]

theorem string_eq_empty_of_length_eq_zero {s : String} (h : s.length = 0) : s = "" := by
  cases s with
  | mk data =>
    cases data with
    | nil => rfl
    | cons c cs => simp [String.length] at h

/-! ### Scenario lemmas for the SASL branch -/

theorem saslCompose_error_no_kdc (cluster : Cluster) (conf : InputConf) (nodename : String)
    (hg : "GSSAPI" ∈ saslMechs conf) (hk : cluster.kdc = none) :
    ∃ e, saslCompose cluster conf nodename = .error e := by
  unfold saslCompose
  rw [if_pos (List.length_pos.mpr (List.ne_nil_of_mem hg))]
  cases hps : plainStep conf (saslMechs conf) with
  | error e => exact ⟨e, by simp only [hps]⟩
  | ok pr =>
    obtain ⟨jaas1, warns⟩ := pr
    refine ⟨.attributeErrorKdcNone, ?_⟩
    simp only [hps]
    unfold gssapiStep
    rw [if_pos hg, hk]

theorem saslCompose_plain_no_users (cluster : Cluster) (conf : InputConf) (nodename : String)
    (hm : conf.sasl_mechanisms = some "PLAIN") (hu : conf.sasl_users = some "") :
    saslCompose cluster conf nodename = .ok
      { jaasLines := ["KafkaServer \x7b", "\x7d;\n"],
        confBlob := ["sasl.enabled.mechanisms=PLAIN"],
        warnings := [warnNoSaslUsers],
        env := [("KAFKA_OPTS", "-Djava.security.auth.login.config=jaas_broker.conf"),
                ("KAFKA_OPTS", "-Djava.security.debug=all")],
        jaasFile := some ("jaas_broker.conf", "KafkaServer \x7b\n\x7d;\n") } := by
  have hmechs : saslMechs conf = ["PLAIN"] := by unfold saslMechs; rw [hm]; decide
  have hplain : plainStep conf ["PLAIN"] = .ok (["KafkaServer \x7b"], [warnNoSaslUsers]) := by
    unfold plainStep
    rw [hu]
    simp only [Option.getD_some]
    rw [if_pos (by decide : ("PLAIN" : String) ∈ ["PLAIN"]),
      if_pos (by decide : ("" : String).length = 0)]
  unfold saslCompose
  rw [hmechs, if_pos (by decide : (["PLAIN"] : List String).length > 0)]
  simp only [hplain]
  unfold gssapiStep
  rw [if_neg (by decide : ¬("GSSAPI" : String) ∈ ["PLAIN"])]
  decide

theorem saslCompose_plain_gssapi (cluster : Cluster) (conf : InputConf) (nodename : String)
    (kdc : KdcApp) (us : String) (pairs : List (String × String))
    (hkdc : cluster.kdc = some kdc)
    (hPL : "PLAIN" ∈ saslMechs conf)
    (hGS : "GSSAPI" ∈ saslMechs conf)
    (hu : conf.sasl_users = some us) (hne : us ≠ "")
    (hps : parseUsers (pySplit ',' us.data) = .ok pairs) :
    ∃ s, saslCompose cluster conf nodename = .ok s ∧
      s.jaasLines = ["KafkaServer \x7b"] ++ appendSemiToLast (plainJaasLines pairs) ++
        gssapiJaasLines (kdc.addPrincipal "kafka" nodename).2
          (kdc.addPrincipal "kafka" nodename).1 ++ ["\x7d;\n"] := by
  have hplain : plainStep conf (saslMechs conf) =
      .ok (["KafkaServer \x7b"] ++ appendSemiToLast (plainJaasLines pairs), []) := by
    unfold plainStep
    rw [if_pos hPL, hu]
    simp only [Option.getD_some]
    rw [if_neg (fun hc => hne (string_eq_empty_of_length_eq_zero hc))]
    simp only [hps]
    rw [appendSemiToLast_append ["KafkaServer \x7b"] (by simp [plainJaasLines])]
  unfold saslCompose
  rw [if_pos (List.length_pos.mpr (List.ne_nil_of_mem hPL))]
  simp only [hplain]
  unfold gssapiStep
  rw [if_pos hGS, hkdc]
  refine ⟨_, rfl, ?_⟩
  simp [closeJaas, List.append_assoc]

theorem saslCompose_bad_user (cluster : Cluster) (conf : InputConf) (nodename : String)
    (us : String)
    (hPL : "PLAIN" ∈ saslMechs conf)
    (hu : conf.sasl_users = some us)
    (hbad : ∃ e ∈ pySplit ',' us.data, e ≠ "" ∧ (pySplit '=' e.data).length ≠ 2) :
    ∃ bad, saslCompose cluster conf nodename = .error (.valueError bad) := by
  obtain ⟨e, he, hene, helen⟩ := hbad
  have hne : us ≠ "" := by
    rintro rfl
    rw [show pySplit ',' ("" : String).data = [""] from rfl] at he
    exact hene (List.mem_singleton.mp he)
  obtain ⟨bad, hpe⟩ := parseUsers_error (pySplit ',' us.data) ⟨e, he, helen⟩
  have hplain : plainStep conf (saslMechs conf) = .error (.valueError bad) := by
    unfold plainStep
    rw [if_pos hPL, hu]
    simp only [Option.getD_some]
    rw [if_neg (fun hc => hne (string_eq_empty_of_length_eq_zero hc))]
    simp only [hpe]
  refine ⟨bad, ?_⟩
  unfold saslCompose
  rw [if_pos (List.length_pos.mpr (List.ne_nil_of_mem hPL))]
  simp only [hplain]

theorem exists_ok_of_isOk {ε α : Type} {x : Except ε α} (h : x.isOk = true) :
    ∃ a, x = .ok a := by
  cases x with
  | error e => exact absurd h (by simp [Except.isOk, Except.toBool])
  | ok a => exact ⟨a, rfl⟩

/-! ### Claims -/

/-- C1: for every listener CSV and SASL-mechanism CSV given at construction,
the final listener set used for port allocation is the deduplicated,
lexicographically sorted union of the protocols parsed from the listener CSV
(defaulting to PLAINTEXT when absent) and the singleton SASL_PLAINTEXT, the
latter included iff at least one SASL mechanism was requested. -/
theorem C1_listener_set (cluster : Cluster) (conf : InputConf) (nodename : String)
    (kafkaPath : Option String) (st : BrokerState)
    (h : build cluster conf nodename kafkaPath = .ok st) :
    (st.ports.map Prod.fst).Pairwise (fun a b => strLe a b = true ∧ a ≠ b) ∧
    ∀ x, (x ∈ st.ports.map Prod.fst ↔
      (x ∈ parseListenersCSV conf ∨ (x = "SASL_PLAINTEXT" ∧ saslMechs conf ≠ []))) := by
  obtain ⟨zk, p0, rest, s, hzk, hp, hs, hst⟩ := build_ok_inv h
  have hports : st.ports = allocPorts cluster.portAt 0 (sortedSet (finalListenerNames conf)) := by
    rw [hst, hp]; simp [assemble]
  rw [hports, allocPorts_map_fst]
  constructor
  · exact List.Pairwise.and (sortedSet_sorted (finalListenerNames conf)) (sortedSet_nodup _)
  · intro x
    rw [mem_sortedSet, mem_finalListenerNames]

/-- C1 witness: the theorem applied at a concrete construction. -/
theorem C1_witness : ∃ st, build exCluster exConfC1 "node1" none = .ok st ∧
    ((st.ports.map Prod.fst).Pairwise (fun a b => strLe a b = true ∧ a ≠ b) ∧
     ∀ x, (x ∈ st.ports.map Prod.fst ↔
       (x ∈ parseListenersCSV exConfC1 ∨ (x = "SASL_PLAINTEXT" ∧ saslMechs exConfC1 ≠ [])))) := by
  obtain ⟨st, hst⟩ := exists_ok_of_isOk
    (by decide : (build exCluster exConfC1 "node1" none).isOk = true)
  exact ⟨st, hst, C1_listener_set exCluster exConfC1 "node1" none st hst⟩

/-- C2: for every construction the default port (field `port`, embedded in
`address`) is the port allocated to the lexicographically first listener
protocol name, and in particular with listeners "SSL,PLAINTEXT" and no SASL
mechanisms exactly 2 ports are allocated and the default port is the
PLAINTEXT one. -/
theorem C2_default_port :
    (∀ (cluster : Cluster) (conf : InputConf) (nodename : String)
       (kafkaPath : Option String) (st : BrokerState),
       build cluster conf nodename kafkaPath = .ok st →
       ∃ pr rest, st.ports = pr :: rest ∧ st.port = pr.2 ∧
         st.address = nodename ++ ":" ++ toString st.port ∧
         ∀ q ∈ st.ports, strLe pr.1 q.1 = true) ∧
    (build exCluster exConfC2 "node1" none).map (fun st => (st.ports, st.port)) =
      .ok ([("PLAINTEXT", 9092), ("SSL", 9093)], 9092) := by
  constructor
  · intro cluster conf nodename kafkaPath st h
    obtain ⟨zk, p0, rest, s, hzk, hp, hs, hst⟩ := build_ok_inv h
    have hports : st.ports = allocPorts cluster.portAt 0 (sortedSet (finalListenerNames conf)) := by
      rw [hst, hp]; simp [assemble]
    refine ⟨p0, rest, by rw [hst]; simp [assemble], by rw [hst]; simp [assemble],
      by rw [hst]; simp [assemble], ?_⟩
    intro q hq
    have hq1 : q.1 ∈ st.ports.map Prod.fst := List.mem_map_of_mem Prod.fst hq
    rw [hports, allocPorts_map_fst] at hq1
    have hss : sortedSet (finalListenerNames conf) = p0.1 :: rest.map Prod.fst := by
      rw [← allocPorts_map_fst cluster.portAt 0 (sortedSet (finalListenerNames conf)), hp]
      simp
    rw [hss] at hq1
    rcases List.mem_cons.mp hq1 with heq | hmem
    · rw [heq]; exact strLe_refl _
    · have hsorted := sortedSet_sorted (finalListenerNames conf)
      rw [hss] at hsorted
      exact List.rel_of_sorted_cons hsorted _ hmem
  · decide

/-- C2 witness: the universal part applied at a concrete construction. -/
theorem C2_witness : ∃ st, build exCluster exConfC2 "node1" none = .ok st ∧
    ∃ pr rest, st.ports = pr :: rest ∧ st.port = pr.2 ∧
      st.address = "node1" ++ ":" ++ toString st.port ∧
      ∀ q ∈ st.ports, strLe pr.1 q.1 = true := by
  obtain ⟨st, hst⟩ := exists_ok_of_isOk
    (by decide : (build exCluster exConfC2 "node1" none).isOk = true)
  exact ⟨st, hst, C2_default_port.1 exCluster exConfC2 "node1" none st hst⟩

/-- C3 counterexample: with `sasl_mechanisms="PLAIN"` and `sasl_users=""`,
construction succeeds and logs the warning, but a JAAS file IS created
(holding the empty `KafkaServer` block), refuting the claim that no JAAS
file is created. -/
theorem C3_counterexample :
    (build exCluster exConfC3 "node1" none).map
        (fun st => (st.jaasFile.isSome, st.warnings)) = .ok (true, [warnNoSaslUsers]) := by
  decide

/-- C3 (amended): if sasl_mechanisms is "PLAIN" and sasl_users is the empty
string, construction succeeds and a warning is logged (not raised), but a
JAAS file is still created, containing only the empty KafkaServer block
(no login-module and no user lines). -/
theorem C3_plain_no_users_warns (cluster : Cluster) (conf : InputConf) (nodename : String)
    (kafkaPath : Option String) (zk : ZkApp)
    (hzk : cluster.zk = some zk)
    (hm : conf.sasl_mechanisms = some "PLAIN")
    (hu : conf.sasl_users = some "") :
    ∃ st, build cluster conf nodename kafkaPath = .ok st ∧
      st.warnings = [warnNoSaslUsers] ∧
      st.jaasFile = some ("jaas_broker.conf", "KafkaServer \x7b\n\x7d;\n") := by
  obtain ⟨p0, rest, hp⟩ := allocPorts_cons_of_ne_nil cluster.portAt (sortedSet_ne_nil (finalListenerNames_ne_nil conf))
  rw [build_eq cluster conf nodename kafkaPath zk p0 rest hzk hp,
    saslCompose_plain_no_users cluster conf nodename hm hu]
  simp only [Except.map]
  exact ⟨_, rfl, by simp [assemble], by simp [assemble]⟩

/-- C3 witness: the amended theorem applied at a concrete construction. -/
theorem C3_witness : ∃ st, build exCluster exConfC3 "node1" none = .ok st ∧
    st.warnings = [warnNoSaslUsers] ∧
    st.jaasFile = some ("jaas_broker.conf", "KafkaServer \x7b\n\x7d;\n") :=
  C3_plain_no_users_warns exCluster exConfC3 "node1" none exZk rfl rfl rfl

/-- C4: if the artifact fetch/build command exits non-zero, deploy raises an
exception carrying the failing command and exit code, and `start_cmd` is
unchanged from its pre-deploy value. -/
theorem C4_deploy_fail_raises (env : DeployEnv) (st : BrokerState)
    (hex : env.deployShExists = true)
    (hr : env.system (deployCmd env st) ≠ 0) :
    deploy env st =
      (st, some (.commandFailed (deployCmd env st) (env.system (deployCmd env st)))) ∧
    (deploy env st).1.startCmd = st.startCmd := by
  have hd : deploy env st =
      (st, some (.commandFailed (deployCmd env st) (env.system (deployCmd env st)))) := by
    simp [deploy, hex, hr]
  exact ⟨hd, by rw [hd]⟩

/-- C4 witness: the theorem applied at a concrete environment whose fetch
command exits 1. -/
theorem C4_witness : deploy exDeployEnv exState =
      (exState, some (.commandFailed (deployCmd exDeployEnv exState) 1)) ∧
    (deploy exDeployEnv exState).1.startCmd = exState.startCmd :=
  C4_deploy_fail_raises exDeployEnv exState rfl (by decide)

/-- C5 counterexample: with `sasl_mechanisms="GSSAPI,PLAIN"` (GSSAPI listed
first) the generated JAAS block places the PLAIN stanza (line index 1)
before the GSSAPI stanza (line index 3), refuting the claim that the
stanzas appear in the order the mechanisms were listed. -/
theorem C5_counterexample :
    saslMechs exConfC5 = ["GSSAPI", "PLAIN"] ∧
    (build exClusterKdc exConfC5 "node1" none).map
        (fun st => (st.jaasLines.indexOf plainLoginHeader,
          st.jaasLines.indexOf "com.sun.security.auth.module.Krb5LoginModule required")) =
      .ok (1, 3) :=
  ⟨by decide, by decide⟩

/-- C5 (amended): if both PLAIN and GSSAPI mechanisms are requested, both
stanzas nest inside the single outer KafkaServer login-module block, with
the PLAIN stanza always first and the GSSAPI stanza second, regardless of
the order the mechanisms were listed in the sasl_mechanisms CSV. -/
theorem C5_nested_stanzas (cluster : Cluster) (conf : InputConf) (nodename : String)
    (kafkaPath : Option String) (zk : ZkApp) (kdc : KdcApp) (us : String)
    (pairs : List (String × String))
    (hzk : cluster.zk = some zk) (hkdc : cluster.kdc = some kdc)
    (hPL : "PLAIN" ∈ saslMechs conf) (hGS : "GSSAPI" ∈ saslMechs conf)
    (hu : conf.sasl_users = some us) (hne : us ≠ "")
    (hps : parseUsers (pySplit ',' us.data) = .ok pairs) :
    ∃ st, build cluster conf nodename kafkaPath = .ok st ∧
      st.jaasLines = ["KafkaServer \x7b"] ++ appendSemiToLast (plainJaasLines pairs) ++
        gssapiJaasLines (kdc.addPrincipal "kafka" nodename).2
          (kdc.addPrincipal "kafka" nodename).1 ++ ["\x7d;\n"] := by
  obtain ⟨p0, rest, hp⟩ := allocPorts_cons_of_ne_nil cluster.portAt (sortedSet_ne_nil (finalListenerNames_ne_nil conf))
  obtain ⟨s, hs, hsj⟩ :=
    saslCompose_plain_gssapi cluster conf nodename kdc us pairs hkdc hPL hGS hu hne hps
  rw [build_eq cluster conf nodename kafkaPath zk p0 rest hzk hp, hs]
  simp only [Except.map]
  exact ⟨_, rfl, by simp [assemble, hsj]⟩

/-- C5 witness: the amended theorem applied at a concrete construction with
mechanisms listed as "GSSAPI,PLAIN". -/
theorem C5_witness : ∃ st, build exClusterKdc exConfC5 "node1" none = .ok st ∧
    st.jaasLines = ["KafkaServer \x7b"] ++
      appendSemiToLast (plainJaasLines [("alice", "secret")]) ++
      gssapiJaasLines (exKdc.addPrincipal "kafka" "node1").2
        (exKdc.addPrincipal "kafka" "node1").1 ++ ["\x7d;\n"] :=
  C5_nested_stanzas exClusterKdc exConfC5 "node1" none exZk exKdc "alice=secret"
    [("alice", "secret")] rfl rfl (by decide) (by decide) rfl (by decide) (by decide)

/-- C6: for every construction, the computed advertised.listeners value is
character-for-character identical to the computed listeners value. -/
theorem C6_advertised_eq_listeners (cluster : Cluster) (conf : InputConf) (nodename : String)
    (kafkaPath : Option String) (st : BrokerState)
    (h : build cluster conf nodename kafkaPath = .ok st) :
    st.advertisedListeners = st.listeners := by
  obtain ⟨zk, p0, rest, s, hzk, hp, hs, hst⟩ := build_ok_inv h
  rw [hst]
  simp [assemble]

/-- C6 witness: the theorem applied at a concrete construction. -/
theorem C6_witness : ∃ st, build exCluster exConfC6 "node1" none = .ok st ∧
    st.advertisedListeners = st.listeners := by
  obtain ⟨st, hst⟩ := exists_ok_of_isOk
    (by decide : (build exCluster exConfC6 "node1" none).isOk = true)
  exact ⟨st, hst, C6_advertised_eq_listeners exCluster exConfC6 "node1" none st hst⟩

/-- C7: with sasl_mechanisms "PLAIN" and sasl_users "alice=secret,bob=pw",
the generated login block contains exactly two user_ lines — user_alice
then user_bob, in input order — and the last of them is terminated by a
semicolon. -/
theorem C7_two_user_lines :
    (build exCluster exConfC7 "node1" none).map
        (fun st => (st.jaasLines.filter (fun l => hasPrefixChars "user_".data l.data),
                    st.jaasLines)) =
      .ok (["user_alice=\"secret\"", "user_bob=\"pw\";"],
           ["KafkaServer \x7b", plainLoginHeader,
            "user_alice=\"secret\"", "user_bob=\"pw\";", "\x7d;\n"]) := by
  decide

/-- C8: if GSSAPI is among the requested SASL mechanisms and no KDC app is
present in the cluster, construction fails rather than completing. -/
theorem C8_gssapi_requires_kdc (cluster : Cluster) (conf : InputConf) (nodename : String)
    (kafkaPath : Option String)
    (hg : "GSSAPI" ∈ saslMechs conf) (hk : cluster.kdc = none) :
    (build cluster conf nodename kafkaPath).isOk = false := by
  unfold build
  cases hzk : cluster.zk with
  | none => rfl
  | some zk =>
    cases hp : allocPorts cluster.portAt 0 (sortedSet (finalListenerNames conf)) with
    | nil => rfl
    | cons p0 rest =>
      obtain ⟨e, he⟩ := saslCompose_error_no_kdc cluster conf nodename hg hk
      rw [he]
      rfl

/-- C8 witness: the theorem applied at a concrete KDC-less cluster. -/
theorem C8_witness : ("GSSAPI" ∈ saslMechs exConfC8) ∧ exCluster.kdc = none ∧
    (build exCluster exConfC8 "node1" none).isOk = false :=
  ⟨by decide, rfl, C8_gssapi_requires_kdc exCluster exConfC8 "node1" none (by decide) rfl⟩

/-- C9: if the cluster registry contains no ZookeeperApp, construction
aborts by raising and no state is produced. -/
theorem C9_zookeeper_required (cluster : Cluster) (conf : InputConf) (nodename : String)
    (kafkaPath : Option String) (hzk : cluster.zk = none) :
    build cluster conf nodename kafkaPath = .error .zookeeperRequired := by
  unfold build
  rw [hzk]

/-- C9 witness: the theorem applied at a concrete Zookeeper-less cluster. -/
theorem C9_witness : build exClusterNoZk exConfC9 "node1" none = .error .zookeeperRequired :=
  C9_zookeeper_required exClusterNoZk exConfC9 "node1" none rfl

/-- C10: if PLAIN is among the mechanisms and some non-empty sasl_users
entry does not split into exactly two parts at '=', construction raises the
(unhandled) ValueError from the tuple unpacking. -/
theorem C10_malformed_user_raises (cluster : Cluster) (conf : InputConf) (nodename : String)
    (kafkaPath : Option String) (zk : ZkApp) (us : String)
    (hzk : cluster.zk = some zk)
    (hPL : "PLAIN" ∈ saslMechs conf)
    (hu : conf.sasl_users = some us)
    (hbad : ∃ e ∈ pySplit ',' us.data, e ≠ "" ∧ (pySplit '=' e.data).length ≠ 2) :
    ∃ bad, build cluster conf nodename kafkaPath = .error (.valueError bad) := by
  obtain ⟨p0, rest, hp⟩ := allocPorts_cons_of_ne_nil cluster.portAt (sortedSet_ne_nil (finalListenerNames_ne_nil conf))
  obtain ⟨bad, hbe⟩ := saslCompose_bad_user cluster conf nodename us hPL hu hbad
  rw [build_eq cluster conf nodename kafkaPath zk p0 rest hzk hp, hbe]
  exact ⟨bad, rfl⟩

/-- C10 witness: the theorem applied at the concrete entry "alice". -/
theorem C10_witness : ∃ bad, build exCluster exConfC10 "node1" none = .error (.valueError bad) :=
  C10_malformed_user_raises exCluster exConfC10 "node1" none exZk "alice" rfl (by decide) rfl
    ⟨"alice", by decide, by decide, by decide⟩

end KafkaBroker
